import Mathlib

/-!
Shallow embedding of `conditional.go` from `itsjamie/gin-conditional`,
an evaluator for HTTP/1.1 conditional-request preconditions (RFC 7232).

Modelling conventions:
- `Etag() (string, error)` is embedded as `String × Option EtagError`,
  where `EtagError.noResource` stands for `ErrNoResource` and
  `EtagError.generic` for any other error.
- Go's `gin.Context` is reduced to the data `Conditional` actually reads:
  the request method and the six header values, with `""` meaning the
  header is absent (Go's `Header.Get` returns `""` then).
- `time.Time` values are embedded as `Int` timestamps; `t1.Before(t2)`
  is `t1 < t2` and `t1.After(t2)` is `t2 < t1`.
- `time.Parse(http.TimeFormat, s)` is an external pure function, taken
  as an explicit parameter `parse : String → Option Int`; `time.Now()`
  is the explicit parameter `now : Int`.
- The Go return value plus the `AbortWithStatus` side effect are folded
  into a `Verdict`: `(false, nil)` is `Continue`, `(true, nil)` after
  `AbortWithStatus s` is `ShortCircuit s`, `(false, ErrWasModified)` is
  `Reject wasModified`, `(false, ErrRangeMismatch)` is
  `Reject rangeMismatch`.
-/

/-- Method constant `Get = "GET"` from the source. -/
def Get : String := "GET"

/-- Method constant `Head = "HEAD"` from the source. -/
def Head : String := "HEAD"

/-- Result of `Etag()`'s error component: `ErrNoResource` or any other error. -/
inductive EtagError
  | noResource
  | generic
deriving DecidableEq, Repr

/-- The request data `Conditional` reads from the `gin.Context`:
method and the six header values (`""` = header absent). -/
structure Request where
  method : String
  ifMatch : String
  ifUnmodifiedSince : String
  ifNoneMatch : String
  ifModifiedSince : String
  ifRange : String
  rangeHeader : String
deriving DecidableEq, Repr

/-- A resource snapshot: which capability interfaces the Go type
assertion finds (`canCheckEtag`, `canCheckModifier`) and the fixed
results of the capability calls. -/
structure Resource where
  canCheckEtag : Bool
  canCheckModifier : Bool
  etagResult : String × Option EtagError
  lastModified : Int
deriving DecidableEq, Repr

/-- Reason component of an error verdict: `ErrWasModified` or `ErrRangeMismatch`. -/
inductive Reason
  | wasModified
  | rangeMismatch
deriving DecidableEq, Repr

/-- Caller-observable outcome of one evaluation. -/
inductive Verdict
  | Continue
  | ShortCircuit (status : Nat)
  | Reject (reason : Reason)
deriving DecidableEq, Repr

/-- `handleIfMatch` (RFC 7232 §3.1 per its doc comment). -/
def handleIfMatch (etag : String × Option EtagError) (clientEtag : String) : Bool :=
  let serverEtag := etag.1
  let err := etag.2
  if err ≠ none ∧ err ≠ some EtagError.noResource then false
  else if clientEtag = "*" ∧ err = some EtagError.noResource then false
  else if serverEtag = clientEtag ∨ clientEtag = "*" then true
  else false

/-- `handleIfUnmodifiedSince` (RFC 7232 §3.4 per its doc comment):
parse failure returns `false`; otherwise returns `true` iff
`clientDate.Before(serverDate)`. -/
def handleIfUnmodifiedSince (parse : String → Option Int) (lastModified : Int)
    (date : String) : Bool :=
  match parse date with
  | none => false
  | some clientDate => if clientDate < lastModified then true else false

/-- `handleIfNoneMatch` (RFC 7232 §3.2 per its doc comment). -/
def handleIfNoneMatch (etag : String × Option EtagError) (clientEtag : String) : Bool :=
  let serverEtag := etag.1
  match etag.2 with
  | some err => if clientEtag = "*" ∧ err = EtagError.noResource then true else false
  | none => if clientEtag = serverEtag then false else true

/-- `handleIfModifiedSince` (RFC 7232 §3.3 per its doc comment):
parse failure returns `false`; otherwise returns `false` iff
`clientDate.After(now) || clientDate.Before(serverDate)`. -/
def handleIfModifiedSince (parse : String → Option Int) (now lastModified : Int)
    (date : String) : Bool :=
  match parse date with
  | none => false
  | some clientDate =>
    if now < clientDate ∨ clientDate < lastModified then false else true

/-- `handleIfRange`: the source's body is unconditionally `return false`. -/
def handleIfRange (etag : String × Option EtagError) (clientEtag : String) : Bool :=
  false

/-- The first `if`/`else if` block of `Conditional` (If-Match, then
If-Unmodified-Since): `some v` when it returns verdict `v`, `none` when
control falls through to the If-None-Match block. -/
def matchStep (parse : String → Option Int) (req : Request) (r : Resource) :
    Option Verdict :=
  if r.canCheckEtag ∧ req.ifMatch ≠ "" then
    if handleIfMatch r.etagResult req.ifMatch = false then
      some (Verdict.Reject Reason.wasModified)
    else none
  else if r.canCheckModifier ∧ req.ifUnmodifiedSince ≠ "" then
    if handleIfUnmodifiedSince parse r.lastModified req.ifUnmodifiedSince = false then
      some (Verdict.Reject Reason.wasModified)
    else none
  else none

/-- The trailing If-Range block of `Conditional`, reached only by the
control paths that do not `return` inside the If-None-Match block. -/
def rangeStep (req : Request) (r : Resource) : Verdict :=
  if req.method = Get ∧ req.rangeHeader ≠ "" ∧ req.ifRange ≠ "" then
    if handleIfRange r.etagResult req.ifRange = false then
      Verdict.Reject Reason.rangeMismatch
    else Verdict.Continue
  else Verdict.Continue

/-- `Conditional(c, resource)`: the full evaluator. Mirrors the Go
control flow statement by statement, including the
`method != Get || method != Head` guard exactly as written. -/
def Conditional (parse : String → Option Int) (now : Int) (req : Request)
    (r : Resource) : Verdict :=
  match matchStep parse req r with
  | some v => v
  | none =>
    if r.canCheckEtag ∧ req.ifNoneMatch ≠ "" then
      if handleIfNoneMatch r.etagResult req.ifNoneMatch = false then
        if req.method = Get ∨ req.method = Head then Verdict.ShortCircuit 304
        else Verdict.ShortCircuit 412
      else rangeStep req r
    else if req.method ≠ Get ∨ req.method ≠ Head then Verdict.Continue
    else if r.canCheckModifier ∧ req.ifModifiedSince ≠ "" then
      if handleIfModifiedSince parse now r.lastModified req.ifModifiedSince = false then
        Verdict.ShortCircuit 304
      else rangeStep req r
    else rangeStep req r

/-- A parse function recognising exactly one date string `k`, mapped to
timestamp `v`; used to build concrete evaluation instances. -/
def parseAt (k : String) (v : Int) : String → Option Int :=
  fun s => if s = k then some v else none

/-- C1: the claim says that with If-None-Match inapplicable, method GET,
If-Modified-Since present and last-modified supported, the predicate is
evaluated and its failure yields `ShortCircuit 304`. On the code the
`method ≠ GET ∨ method ≠ HEAD` guard is a tautology, so this branch is
dead: at an input where the resource was not modified after the client
date (the claim's predicate fails), evaluation returns `Continue`. -/
theorem c1_deadIfModifiedSinceBranch :
    Conditional (parseAt "ims" 100) 200
      ⟨"GET", "", "", "", "ims", "", ""⟩
      ⟨true, true, ("abc", none), 50⟩ = Verdict.Continue := by decide

/-- C2: the claim says the If-Unmodified-Since predicate holds iff the
last-modified timestamp is not strictly after the client timestamp. The
code's comparison is inverted: at equal timestamps (claim: holds) the
predicate is `false` and the evaluation rejects with `WasModified`;
with last-modified strictly after the client date (claim: fails) the
predicate is `true`. -/
theorem c2_invertedIfUnmodifiedSince :
    handleIfUnmodifiedSince (parseAt "ius" 100) 100 "ius" = false ∧
    handleIfUnmodifiedSince (parseAt "ius" 100) 150 "ius" = true ∧
    Conditional (parseAt "ius" 100) 200
      ⟨"DELETE", "", "ius", "", "", "", ""⟩
      ⟨false, true, ("", none), 100⟩ = Verdict.Reject Reason.wasModified := by
  refine ⟨by decide, by decide, by decide⟩

/-- C3: the claim says `If-None-Match: *` against a resource with an
existing entity makes the predicate fail (evaluation short-circuits).
The code only special-cases `*` on the error path; on etag success it
compares `*` as a literal string, so the predicate holds and the
evaluation continues. -/
theorem c3_wildcardNotSpecialCased :
    handleIfNoneMatch ("abc", none) "*" = true ∧
    Conditional (fun _ => none) 0
      ⟨"GET", "", "", "*", "", "", ""⟩
      ⟨true, false, ("abc", none), 0⟩ = Verdict.Continue := by
  refine ⟨by decide, by decide⟩

/-- C4: the claim says the If-Range predicate holds iff the validator
matches the current etag, and a GET with Range + non-matching If-Range
yields `Reject rangeMismatch`. The code's `handleIfRange` is a stub
returning `false` even on an exact match, and the evaluation path with
no If-None-Match header returns `Continue` (the tautological guard
returns before the If-Range block), not `Reject rangeMismatch`. -/
theorem c4_ifRangeStub :
    handleIfRange ("abc", none) "abc" = false ∧
    Conditional (fun _ => none) 0
      ⟨"GET", "", "", "", "", "xyz", "bytes=0-5"⟩
      ⟨true, false, ("abc", none), 0⟩ = Verdict.Continue ∧
    Conditional (fun _ => none) 0
      ⟨"GET", "", "", "zzz", "", "abc", "bytes=0-5"⟩
      ⟨true, false, ("abc", none), 0⟩ = Verdict.Reject Reason.rangeMismatch := by
  refine ⟨by decide, by decide, by decide⟩

/-- C5: with only an If-None-Match header equal to the resource's
current etag, evaluation short-circuits with 304 for GET/HEAD and with
412 for every other method. -/
theorem c5_noneMatchEqualEtag (parse : String → Option Int) (now : Int)
    (req : Request) (r : Resource) (E : String)
    (hE : E ≠ "")
    (hm : req.ifMatch = "") (hu : req.ifUnmodifiedSince = "")
    (hn : req.ifNoneMatch = E)
    (hc : r.canCheckEtag = true) (he : r.etagResult = (E, none)) :
    (req.method = Get ∨ req.method = Head →
      Conditional parse now req r = Verdict.ShortCircuit 304) ∧
    (req.method ≠ Get ∧ req.method ≠ Head →
      Conditional parse now req r = Verdict.ShortCircuit 412) := by
  have hstep : matchStep parse req r = none := by
    simp [matchStep, hm, hu]
  have hpred : handleIfNoneMatch r.etagResult E = false := by
    simp [handleIfNoneMatch, he]
  constructor
  · intro hmethod
    simp [Conditional, hstep, hc, hn, hE, hpred, hmethod]
  · intro hmethod
    simp [Conditional, hstep, hc, hn, hE, hpred, hmethod.1, hmethod.2]

/-- Witness for C5 at a concrete input: etag `"abc"`, GET,
`If-None-Match: "abc"` gives `ShortCircuit 304`. -/
theorem c5_noneMatchEqualEtag_witness :
    Conditional (fun _ => none) 0 ⟨"GET", "", "", "abc", "", "", ""⟩
      ⟨true, false, ("abc", none), 0⟩ = Verdict.ShortCircuit 304 :=
  (c5_noneMatchEqualEtag (fun _ => none) 0
    ⟨"GET", "", "", "abc", "", "", ""⟩ ⟨true, false, ("abc", none), 0⟩
    "abc" (by decide) rfl rfl rfl rfl rfl).1 (Or.inl rfl)

/-- C6: when etag production signals `NoResource` and the request
carries `If-Match: *`, the evaluation rejects with `WasModified`. -/
theorem c6_ifMatchStarNoResource (parse : String → Option Int) (now : Int)
    (req : Request) (r : Resource) (s : String)
    (hm : req.ifMatch = "*") (hc : r.canCheckEtag = true)
    (he : r.etagResult = (s, some EtagError.noResource)) :
    Conditional parse now req r = Verdict.Reject Reason.wasModified := by
  have hpred : handleIfMatch r.etagResult "*" = false := by
    simp [handleIfMatch, he]
  have hstep : matchStep parse req r =
      some (Verdict.Reject Reason.wasModified) := by
    simp [matchStep, hc, hm, hpred]
  simp [Conditional, hstep]

/-- Witness for C6 at a concrete input. -/
theorem c6_ifMatchStarNoResource_witness :
    Conditional (fun _ => none) 0 ⟨"PUT", "*", "", "", "", "", ""⟩
      ⟨true, false, ("", some EtagError.noResource), 0⟩ =
      Verdict.Reject Reason.wasModified :=
  c6_ifMatchStarNoResource (fun _ => none) 0
    ⟨"PUT", "*", "", "", "", "", ""⟩
    ⟨true, false, ("", some EtagError.noResource), 0⟩ "" rfl rfl rfl

/-- C7: the claim says an unparsable If-Unmodified-Since date makes the
predicate hold (header ignored, no rejection). The code returns `false`
on parse failure — directly under its own comment quoting the RFC MUST —
and the evaluation rejects with `WasModified`. -/
theorem c7_unparsableIfUnmodifiedSince :
    handleIfUnmodifiedSince (fun _ => none) 0 "garbage" = false ∧
    Conditional (fun _ => none) 5 ⟨"PUT", "", "garbage", "", "", "", ""⟩
      ⟨false, true, ("", none), 0⟩ = Verdict.Reject Reason.wasModified := by
  refine ⟨by decide, by decide⟩

/-- C8: the claim says an unparsable If-Modified-Since date, or one
strictly after the evaluation instant, makes the predicate hold. The
code's predicate returns `false` in both cases (unparsable `"garbage"`;
`"future"` parsing to 300 with evaluation instant 200). -/
theorem c8_ifModifiedSinceInvalidDates :
    handleIfModifiedSince (fun _ => none) 200 50 "garbage" = false ∧
    handleIfModifiedSince (parseAt "future" 300) 200 50 "future" = false := by
  refine ⟨by decide, by decide⟩

/-- C9: the verdict is a deterministic function of the request, the
evaluation instant, the parse function and the resource snapshot's
capability results: two resources with identical capability results
yield identical verdicts. -/
theorem c9_deterministic (parse : String → Option Int) (now : Int)
    (req : Request) (r1 r2 : Resource)
    (h1 : r1.canCheckEtag = r2.canCheckEtag)
    (h2 : r1.canCheckModifier = r2.canCheckModifier)
    (h3 : r1.etagResult = r2.etagResult)
    (h4 : r1.lastModified = r2.lastModified) :
    Conditional parse now req r1 = Conditional parse now req r2 := by
  cases r1
  cases r2
  simp only at h1 h2 h3 h4
  subst h1 h2 h3 h4
  rfl

/-- Witness for C9 at a concrete input. -/
theorem c9_deterministic_witness :
    Conditional (fun _ => none) 0 ⟨"GET", "", "", "abc", "", "", ""⟩
      ⟨true, true, ("abc", none), 1⟩ =
    Conditional (fun _ => none) 0 ⟨"GET", "", "", "abc", "", "", ""⟩
      ⟨true, true, ("abc", none), 1⟩ :=
  c9_deterministic (fun _ => none) 0 ⟨"GET", "", "", "abc", "", "", ""⟩
    ⟨true, true, ("abc", none), 1⟩ ⟨true, true, ("abc", none), 1⟩
    rfl rfl rfl rfl

/-- C10: when the If-Match/If-Unmodified-Since block falls through
without rejecting and the If-None-Match check is inapplicable (header
absent or no etag capability), `Conditional` returns `Continue` for
every method and every value of the If-Modified-Since, If-Range and
Range headers. -/
theorem c10_inapplicableNoneMatchContinues (parse : String → Option Int)
    (now : Int) (req : Request) (r : Resource)
    (hA : matchStep parse req r = none)
    (hB : ¬(r.canCheckEtag = true ∧ req.ifNoneMatch ≠ "")) :
    Conditional parse now req r = Verdict.Continue := by
  have hmethod : req.method ≠ Get ∨ req.method ≠ Head := by
    by_cases h : req.method = Get
    · exact Or.inr (by rw [h]; decide)
    · exact Or.inl h
  simp [Conditional, hA, hB, hmethod]

/-- Witness for C10 at a concrete input where If-Modified-Since is
present and parsable, If-Range and Range are present, the method is
GET, and the resource supports last-modified: still `Continue`. -/
theorem c10_inapplicableNoneMatchContinues_witness :
    Conditional (parseAt "ims" 100) 200
      ⟨"GET", "", "", "", "ims", "xyz", "bytes=0-1"⟩
      ⟨false, true, ("", none), 0⟩ = Verdict.Continue :=
  c10_inapplicableNoneMatchContinues (parseAt "ims" 100) 200
    ⟨"GET", "", "", "", "ims", "xyz", "bytes=0-1"⟩
    ⟨false, true, ("", none), 0⟩ (by decide) (by decide)
